import Mathlib

/-!
Verification development for the PIMS enrichment microservice.

Shallow embedding notes:
* Python floats occurring in the pipeline (relevance scores, processing
  times) are modelled as rationals; every arithmetic operation involved is
  exact decimal arithmetic well inside double precision, so no rounding
  behaviour is lost.
* Network effects (the search provider, page fetches, the LLM) are modelled
  as oracle inputs: a record field gives, for each call the code makes, the
  outcome that call would have produced.  Exceptions raised by a collaborator
  are a constructor of the corresponding outcome type.
* Python local-variable semantics are modelled faithfully: in
  `EnrichmentService.enrich_product` the local `sources` is assigned only
  inside the non-empty-search branch, so the trailing response construction
  raises `UnboundLocalError` on the other branches; the model routes those
  branches through the generic exception handler.
-/

set_option maxRecDepth 4096

set_option allowUnsafeReducibility true

attribute [semireducible] Rat.add Rat.sub Rat.mul Rat.div Rat.neg Rat.inv

/-- Does `needle` occur as a contiguous run of `haystack`?  Helper for the
substring test. -/
def hasSub (needle : List Char) : List Char → Bool
  | [] => needle.isEmpty
  | c :: rest => needle.isPrefixOf (c :: rest) || hasSub needle rest

/-- Python `needle in haystack` for strings.  Defined on the code-point
lists, matching Python string semantics. -/
def containsSub (haystack needle : String) : Bool :=
  hasSub needle.data haystack.data

/-- Python `s.lower()`, code point by code point (every string the code
lowers is ASCII). -/
def lowerStr (s : String) : String :=
  String.mk (s.data.map Char.toLower)

/-- The whitespace stripped by Python `str.strip()` (the characters that
occur in the modelled pages). -/
def isWsp (c : Char) : Bool :=
  c = ' ' || c = '\t' || c = '\n' || c = '\r'

/-- Python `s.strip()`: drop leading and trailing whitespace. -/
def trimStr (s : String) : String :=
  String.mk (((s.data.dropWhile isWsp).reverse.dropWhile isWsp).reverse)

/-- Python `s.startswith(p)`. -/
def startsWithStr (s p : String) : Bool :=
  p.data.isPrefixOf s.data

/-- Python string slicing `s[:n]` (by code points). -/
def strTake (s : String) (n : Nat) : String :=
  String.mk (s.data.take n)

/-! ## Data model (`app/models/schemas.py`) -/

/-- `SearchResult` of `app/models/schemas.py`. -/
structure SearchResult where
  title : String
  url : String
  snippet : String
  source : String
  position : Int := 0
deriving DecidableEq, Repr

/-- `SourceReference` of `app/models/schemas.py`.  Pydantic validates
`relevance_score` into `[0, 1]`; the pipeline model performs that check at
construction time (`scoreValid`). -/
structure SourceReference where
  url : String
  title : String
  relevance_score : ℚ := 1
deriving DecidableEq, Repr

/-- `EnrichedProductData` of `app/models/schemas.py`.  The `Any` values of
the `specifications` mapping are abstracted as strings; no claim inspects
them. -/
structure EnrichedProductData where
  detailed_description : String
  features : List String := []
  specifications : List (String × String) := []
  benefits : List String := []
  use_cases : List String := []
  images : List String := []
  price_range : Option String := none
  category_hierarchy : List String := []
  tags : List String := []
  seo_title : String
  seo_description : String
deriving DecidableEq, Repr

/-- `EnrichmentRequest` of `app/models/schemas.py`. -/
structure EnrichmentRequest where
  product_name : String
  category : Option String := none
  brand : Option String := none
  model : Option String := none
  additional_context : Option String := none
deriving DecidableEq, Repr

/-- `EnrichmentResponse` of `app/models/schemas.py`, with the pydantic field
defaults. -/
structure EnrichmentResponse where
  success : Bool
  product_name : String
  enriched_data : Option EnrichedProductData := none
  sources : List SourceReference := []
  processing_time : ℚ := 0
  search_results_count : Nat := 0
  cached : Bool := false
  error : Option String := none
deriving DecidableEq, Repr

/-- `ProductContent` of `app/models/schemas.py`. -/
structure ProductContent where
  url : String
  title : String
  description : Option String := none
  text_content : String
  images : List String := []
  price : Option String := none
  specifications : List (String × String) := []
deriving DecidableEq, Repr

/-! ## Content extractor (`app/services/scraper_service.py`) -/

/-- The parsed document handed to `ScraperService._parse_html`, i.e. the
BeautifulSoup tree after the `script`/`style`/`nav`/`footer`/`header`/
`aside`/`iframe`/`noscript` elements and the comment nodes have been
removed. `textNodes` are the remaining visible text nodes in document
order; `imgSrcs` are the `src` attributes of the remaining `img` tags in
document order. -/
structure Doc where
  title : Option String := none
  h1 : Option String := none
  metaDescription : Option String := none
  textNodes : List String := []
  imgSrcs : List String := []
deriving DecidableEq, Repr

/-- `soup.get_text(separator="\n", strip=True)`: strip every text node,
drop the blank ones, join with the separator. -/
def cleanText (doc : Doc) : String :=
  String.intercalate "\n" ((doc.textNodes.map trimStr).filter (fun s => s ≠ ""))

/-- The image filter of `_parse_html`: keep `src` attributes that start with
`http` and contain neither `logo` nor `icon` (case-insensitively). -/
def imgOk (src : String) : Bool :=
  startsWithStr src "http" && !(containsSub (lowerStr src) "logo")
    && !(containsSub (lowerStr src) "icon")

/-- `ScraperService._parse_html`: title with `h1` fallback, meta
description, cleaned text truncated to 15000 characters, at most five
filtered image URLs. -/
def ScraperService.parse_html (url : String) (doc : Doc) : ProductContent :=
  let t0 := (doc.title.map trimStr).getD ""
  let title := if t0 = "" then (doc.h1.map trimStr).getD "" else t0
  let description := (doc.metaDescription.map trimStr).getD ""
  let text_content := strTake (cleanText doc) 15000
  let images := (doc.imgSrcs.filter imgOk).take 5
  { url := url
    title := title
    description := some description
    text_content := text_content
    images := images }

deriving instance DecidableEq for Except

/-- Outcome of the `httpx` GET performed by `extract_content`: either the
client raised (connect error, timeout, ...), or a response arrived, carrying
its status code, its `content-type` header (`""` when absent) and the result
of parsing its body (`Except.error` when parsing raised). -/
inductive FetchResult where
  | raised (msg : String)
  | response (status : Int) (contentType : String) (body : Except String Doc)
deriving DecidableEq, Repr

/-- `ScraperService.extract_content`: every failure path — client
exception, `raise_for_status` on a non-2xx status, a `content-type` not
containing `text/html`, a parse exception — degrades to `none`. -/
def ScraperService.extract_content (url : String) (fetch : FetchResult) :
    Option ProductContent :=
  match fetch with
  | .raised _ => none
  | .response status contentType body =>
    if ¬ (200 ≤ status ∧ status ≤ 299) then none
    else if ¬ containsSub (lowerStr contentType) "text/html" then none
    else
      match body with
      | .error _ => none
      | .ok doc => some (ScraperService.parse_html url doc)

/-- A concrete parsed page used by counterexamples and witnesses. -/
def demoDoc : Doc :=
  { title := some "Demo product"
    metaDescription := some "A demo page"
    textNodes := ["Demo product", "Great value"]
    imgSrcs := ["http://example.com/p.jpg"] }

/-! ## Search provider (`app/services/search_service.py`) -/

/-- One `div.result` element of the DuckDuckGo HTML page, as selected by
`_search_duckduckgo_html_sync`: the title anchor (`.result__title a`) with
its stripped text and `href` when present, and the stripped text of the
snippet element when present. -/
structure ResultElem where
  titleElem : Option (String × String) := none
  snippet : Option String := none
deriving DecidableEq, Repr

/-- The redirect unwrapping of `_search_duckduckgo_html_sync`: when the link
contains `duckduckgo.com/l/?uddg=`, keep the part after `uddg=` and before
the next `&`.  The `urllib.parse.unquote` percent-decoding of that substring
is abstracted as the identity; no claim depends on it. -/
def decodeUddg (link : String) : String :=
  if containsSub link "duckduckgo.com/l/?uddg=" then
    (((link.splitOn "uddg=").getD 1 "").splitOn "&").headD ""
  else link

/-- Outcome of the `httpx` GET against `html.duckduckgo.com` performed by
`_search_duckduckgo_html_sync`: the client raised, or a page arrived with a
status code and its parsed `div.result` elements. -/
inductive DDGFetch where
  | raised (msg : String)
  | page (status : Int) (resultElems : List ResultElem)
deriving DecidableEq, Repr

/-- The result loop of `_search_duckduckgo_html_sync`: enumerate the result
elements, stop at `max_results`, skip elements without a title anchor, and
assign `position = idx + 1` from the enumeration index. -/
def ddgCollect (maxResults : Nat) : Nat → List ResultElem → List SearchResult
  | _, [] => []
  | idx, e :: rest =>
    if maxResults ≤ idx then []
    else
      match e.titleElem with
      | some te =>
        { title := te.1
          url := decodeUddg te.2
          snippet := e.snippet.getD ""
          source := "duckduckgo_html"
          position := (idx : Int) + 1 } :: ddgCollect maxResults (idx + 1) rest
      | none => ddgCollect maxResults (idx + 1) rest

/-- `SearchService._search_duckduckgo_html_sync` (the strategy
`_search_duckduckgo` delegates to): a client exception or a non-200 status
yields `[]`; otherwise the result loop runs. -/
def searchDuckduckgoHtmlSync (maxResults : Nat) (fetch : DDGFetch) :
    List SearchResult :=
  match fetch with
  | .raised _ => []
  | .page status elems =>
    if status ≠ 200 then [] else ddgCollect maxResults 0 elems

/-- One advanced result of the `googlesearch` library (title, url,
description). -/
structure GoogleHit where
  title : String
  url : String
  description : String
deriving DecidableEq, Repr

/-- Outcome of the `googlesearch` library call in `_search_googlesearch`:
the import failed, the call raised, or it returned a list of hits (already
bounded by `num_results`, which the code passes as `max_results`). -/
inductive GoogleOutcome where
  | importFailed
  | raised (msg : String)
  | ok (hits : List GoogleHit)
deriving DecidableEq, Repr

/-- `SearchService._search_googlesearch`: an import failure or an exception
yields `[]`; otherwise each hit becomes a `SearchResult` with
`position = idx + 1` and `source = "google"`. -/
def searchGooglesearch (outcome : GoogleOutcome) : List SearchResult :=
  match outcome with
  | .importFailed => []
  | .raised _ => []
  | .ok hits =>
    hits.enum.map fun ih =>
      { title := ih.2.title
        url := ih.2.url
        snippet := ih.2.description
        source := "google"
        position := (ih.1 : Int) + 1 }

/-- The oracle inputs of one `SearchService.search` call: the configured
maximum result count and the outcome each provider strategy would produce
if invoked. -/
structure SearchEnv where
  maxResults : Nat
  ddg : DDGFetch
  google : GoogleOutcome

/-- `self.provider` as computed in `SearchService.__init__`:
`settings.SEARCH_PROVIDER.lower()` when the setting is truthy, else
`"none"`. -/
def providerName (configured : Option String) : String :=
  match configured with
  | none => "none"
  | some p => if p = "" then "none" else lowerStr p

/-- `SearchService.search`: dispatch on the provider name; `"serpapi"` is a
stub returning `[]`; an unrecognized name (including `"none"`) falls back to
the Google strategy.  Every strategy is total in the model (their internal
`try` blocks absorb exceptions), and the outer `try` of `search` turns any
escaping exception into `[]`, so the function never raises to its
caller. -/
def SearchService.search (provider : String) (env : SearchEnv) :
    List SearchResult :=
  if provider = "duckduckgo" then searchDuckduckgoHtmlSync env.maxResults env.ddg
  else if provider = "serpapi" then []
  else if provider = "googlesearch" then searchGooglesearch env.google
  else searchGooglesearch env.google

/-- The selected DuckDuckGo strategy failed internally: the request raised
or came back with a non-200 status. -/
def ddgFailed : DDGFetch → Bool
  | .raised _ => true
  | .page status _ => status ≠ 200

/-- The selected Google strategy failed internally: the library import
failed or the call raised. -/
def googleFailed : GoogleOutcome → Bool
  | .importFailed => true
  | .raised _ => true
  | .ok _ => false

/-! ## Synthesizer (`app/services/openai_service.py`) -/

/-- The JSON object parsed from the LLM reply, before pydantic validation:
each schema field may be present or absent.  A field whose value has the
wrong type is modelled as absent (both fail pydantic validation).  The
prompt assembly and the temperature selection of `synthesize_product_data`
are not modelled; no claim depends on them. -/
structure JsonProduct where
  detailed_description : Option String := none
  features : Option (List String) := none
  specifications : Option (List (String × String)) := none
  benefits : Option (List String) := none
  use_cases : Option (List String) := none
  images : Option (List String) := none
  price_range : Option String := none
  category_hierarchy : Option (List String) := none
  tags : Option (List String) := none
  seo_title : Option String := none
  seo_description : Option String := none
deriving DecidableEq, Repr

/-- `EnrichedProductData(**data)`: pydantic validation.  The required fields
`detailed_description`, `seo_title`, `seo_description` must be present;
every optional field defaults when absent. -/
def validateEnrichedProductData (j : JsonProduct) :
    Except String EnrichedProductData :=
  match j.detailed_description, j.seo_title, j.seo_description with
  | some d, some t, some s =>
    .ok { detailed_description := d
          features := j.features.getD []
          specifications := j.specifications.getD []
          benefits := j.benefits.getD []
          use_cases := j.use_cases.getD []
          images := j.images.getD []
          price_range := j.price_range
          category_hierarchy := j.category_hierarchy.getD []
          tags := j.tags.getD []
          seo_title := t
          seo_description := s }
  | _, _, _ => .error "validation error for EnrichedProductData"

/-- Outcome of the `chat.completions.create` call inside
`synthesize_product_data`: the call raised (transport or provider error),
the reply content was empty or missing, the content was not valid JSON, or
it parsed to a JSON object. -/
inductive LLMReply where
  | transportError (msg : String)
  | emptyContent
  | invalidJson
  | jsonObject (j : JsonProduct)
deriving DecidableEq, Repr

/-- `OpenAIService.synthesize_product_data`, from the completion call on:
an empty content raises `ValueError("Empty response from LLM")`, a JSON
decode error raises `ValueError("LLM returned invalid JSON")`, a transport
error and a pydantic validation error are re-raised; a valid object is
validated into `EnrichedProductData`.  `Except.error` models the raised
exception (its message stringified). -/
def synthesize_product_data (reply : LLMReply) :
    Except String EnrichedProductData :=
  match reply with
  | .transportError msg => .error msg
  | .emptyContent => .error "Empty response from LLM"
  | .invalidJson => .error "LLM returned invalid JSON"
  | .jsonObject j => validateEnrichedProductData j

/-- The LLM reply fails synthesis: the call failed, or its output is not
parseable as the expected object shape (empty, invalid JSON, or a JSON
object missing a required field). -/
def isFailReply : LLMReply → Bool
  | .transportError _ => true
  | .emptyContent => true
  | .invalidJson => true
  | .jsonObject j =>
    j.detailed_description.isNone || j.seo_title.isNone || j.seo_description.isNone

/-! ## Enrichment orchestrator (`app/services/enrichment_service.py`) -/

/-- The oracle inputs of one `enrich_product` run: the configured
`SEARCH_PROVIDER`, what `search_service.search` returns for a query (it
never raises, see `SearchService.search`), what
`scraper_service.extract_content` returns for a URL (it never raises), the
LLM reply for a synthesis call, and the observed wall-clock time. -/
structure PipelineEnv where
  searchProvider : Option String
  searchReturn : String → List SearchResult
  scrape : String → Option ProductContent
  llmReply : String → List ProductContent → Option String → LLMReply
  elapsed : ℚ

/-- The search-enabled test of `enrich_product`:
`settings.SEARCH_PROVIDER and settings.SEARCH_PROVIDER.lower() != "none"`
(Python truthiness: `None` and `""` are falsy). -/
def searchEnabled (provider : Option String) : Bool :=
  match provider with
  | none => false
  | some p => p ≠ "" && lowerStr p ≠ "none"

/-- The query construction of `enrich_product`: start from `product_name`,
append a space and the brand when `request.brand` is truthy (present and
non-empty), then a space and the model when `request.model` is truthy. -/
def buildQuery (r : EnrichmentRequest) : String :=
  r.product_name
    ++ (match r.brand with
        | some b => if b = "" then "" else " " ++ b
        | none => "")
    ++ (match r.model with
        | some m => if m = "" then "" else " " ++ m
        | none => "")

/-- The search results seen by one run: `[]` when search is disabled (the
initial `search_results = []` is never overwritten), else whatever
`search_service.search` returned for the constructed query. -/
def searchHits (env : PipelineEnv) (request : EnrichmentRequest) :
    List SearchResult :=
  if searchEnabled env.searchProvider then env.searchReturn (buildQuery request)
  else []

/-- The relevance score `1.0 - (result.position * 0.1)` assigned in the
source loop of `enrich_product`. -/
def relevance (r : SearchResult) : ℚ :=
  1 - (r.position : ℚ) * (1 / 10)

/-- Pydantic bounds check on `SourceReference.relevance_score`
(`ge=0.0, le=1.0`); a score outside `[0, 1]` makes the `SourceReference`
constructor raise a validation error. -/
def scoreValid (q : ℚ) : Bool :=
  0 ≤ q && q ≤ 1

/-- The `SourceReference` built for one search hit in `enrich_product`. -/
def mkSource (r : SearchResult) : SourceReference :=
  { url := r.url, title := r.title, relevance_score := relevance r }

/-- The content records that survive scraping: the top-3 hits are scraped
and the absent results are filtered out (`extract_content` never raises, so
the `gather(..., return_exceptions=True)` list holds only `ProductContent`
or `None`).  `[]` when search was disabled or returned nothing. -/
def validContentFor (env : PipelineEnv) (request : EnrichmentRequest) :
    List ProductContent :=
  let hits := searchHits env request
  if hits.isEmpty then []
  else ((hits.take 3).map (fun h => env.scrape h.url)).filterMap id

/-- The generic `except Exception` handler of `enrich_product`: a failure
response carrying the original product name, the stringified exception
prefixed with `"Internal processing error: "`, the elapsed time, and the
schema defaults for every other field. -/
def failureResponse (r : EnrichmentRequest) (msg : String) (elapsed : ℚ) :
    EnrichmentResponse :=
  { success := false
    product_name := r.product_name
    error := some ("Internal processing error: " ++ msg)
    processing_time := elapsed }

/-- The stringified `UnboundLocalError` raised when the final response
construction references the local `sources`, which is assigned only inside
the non-empty-search branch. -/
def unboundLocalMsg : String :=
  "cannot access local variable sources where it is not associated with a value"

/-- The stringified pydantic error raised when a `SourceReference` is built
with a relevance score outside `[0, 1]`. -/
def sourceRefValidationMsg : String :=
  "1 validation error for SourceReference"

/-- `EnrichmentService.enrich_product`.  Faithful control flow:
* search disabled, or search returned `[]`: synthesis runs with no content;
  if it raises, the handler returns a failure response; if it succeeds, the
  response construction raises `UnboundLocalError` on the never-assigned
  local `sources`, and the handler returns a failure response;
* search returned hits: the top-3 loop builds the `SourceReference`s (a
  score outside `[0, 1]` raises before scraping), the scrapes are gathered
  and filtered, synthesis runs; a synthesis exception yields a failure
  response, otherwise the success response carries the sources and the full
  search result count. -/
def enrich_product (env : PipelineEnv) (request : EnrichmentRequest) :
    EnrichmentResponse :=
  let search_results := searchHits env request
  if search_results.isEmpty then
    match synthesize_product_data
        (env.llmReply request.product_name [] request.additional_context) with
    | .error e => failureResponse request e env.elapsed
    | .ok _ => failureResponse request unboundLocalMsg env.elapsed
  else
    let results_to_scrape := search_results.take 3
    if results_to_scrape.all (fun r => scoreValid (relevance r)) then
      match synthesize_product_data
          (env.llmReply request.product_name (validContentFor env request)
            request.additional_context) with
      | .error e => failureResponse request e env.elapsed
      | .ok d =>
        { success := true
          product_name := request.product_name
          enriched_data := some d
          sources := results_to_scrape.map mkSource
          search_results_count := search_results.length
          processing_time := env.elapsed
          cached := false }
    else failureResponse request sourceRefValidationMsg env.elapsed

/-! ## Batch coordinator (`app/api/v1/endpoints/enrich.py`) -/

/-- `BatchEnrichmentRequest`.  Modelled from the spec: the class is imported
by the batch endpoint from `app.models.schemas` but is absent from the
sources; per the spec it carries the ordered list of product requests, and
the endpoint reads its `products` field. -/
structure BatchEnrichmentRequest where
  products : List EnrichmentRequest
deriving DecidableEq, Repr

/-- `BatchEnrichmentResponse`.  Modelled from the spec: the class is
imported by the batch endpoint from `app.models.schemas` but is absent from
the sources; per the spec it carries the ordered result list and the
aggregate counters, with the field names used by the constructor call in
`enrich_products_batch`. -/
structure BatchEnrichmentResponse where
  results : List EnrichmentResponse
  total : Nat
  succeeded : Nat
  failed : Nat
  total_processing_time : ℚ
deriving DecidableEq, Repr

/-- Outcome of one gathered orchestration run inside
`enrich_products_batch`: the coroutine raised (captured by
`return_exceptions=True`) or returned a response. -/
inductive RunOutcome where
  | raised (msg : String)
  | returned (r : EnrichmentResponse)
deriving DecidableEq, Repr

/-- The normalization loop body of `enrich_products_batch`: an exception at
index `i` becomes a failure response with the original
`products[i].product_name` and the stringified exception; a returned
response is kept as is. -/
def normalizeItem (p : EnrichmentRequest) (o : RunOutcome) : EnrichmentResponse :=
  match o with
  | .raised msg =>
    { success := false, product_name := p.product_name, error := some msg }
  | .returned r => r

/-- `enrich_products_batch`: gather one run per product (the outcome list is
index-aligned with the input list), normalize each outcome against the
product at the same index, and aggregate `total = len(normalized)`,
`succeeded = #{success}`, `failed = total - succeeded`. -/
def enrich_products_batch (products : List EnrichmentRequest)
    (outcomes : List RunOutcome) (elapsed : ℚ) : BatchEnrichmentResponse :=
  let normalized := (products.zip outcomes).map fun po => normalizeItem po.1 po.2
  let total := normalized.length
  let succeeded := (normalized.filter fun x => x.success).length
  { results := normalized
    total := total
    succeeded := succeeded
    failed := total - succeeded
    total_processing_time := elapsed }

/-! ## Concrete runs used by counterexamples and witnesses -/

/-- A JSON object carrying all three required fields. -/
def demoJson : JsonProduct :=
  { detailed_description := some "A demo description"
    seo_title := some "Demo SEO title"
    seo_description := some "Demo SEO description" }

/-- The `EnrichedProductData` that `demoJson` validates to. -/
def demoEnriched : EnrichedProductData :=
  { detailed_description := "A demo description"
    seo_title := "Demo SEO title"
    seo_description := "Demo SEO description" }

/-- A request as in `test_enrich.py`. -/
def reqDemo : EnrichmentRequest :=
  { product_name := "iPhone 15 Pro", brand := some "Apple" }

/-! ## Claims -/

/-- C9: for every successfully parsed page, `text_content` has length at
most 15000 and is a prefix of the full cleaned visible text (the
separator-joined, whitespace-stripped concatenation of visible text
nodes) — truncation, not summarization. -/
theorem claim9_text_truncation (url : String) (doc : Doc) :
    (ScraperService.parse_html url doc).text_content.length ≤ 15000
    ∧ ∃ rest, (cleanText doc).data
        = (ScraperService.parse_html url doc).text_content.data ++ rest := by
  constructor
  · show ((cleanText doc).data.take 15000).length ≤ 15000
    simp
  · exact ⟨(cleanText doc).data.drop 15000,
      (List.take_append_drop 15000 (cleanText doc).data).symm⟩

/-- C7 counterexample: a response with the non-200 status 201 and an HTML
body does not yield the absent value — `extract_content` parses it.  The
claim "a non-200 status yields `None`" is therefore false as stated
(`raise_for_status` only raises outside the 2xx range). -/
theorem claim7_counterexample :
    (ScraperService.extract_content "http://example.com/p"
        (FetchResult.response 201 "text/html" (Except.ok demoDoc))).isSome = true
    ∧ (201 : Int) ≠ 200 := by
  exact ⟨rfl, by decide⟩

/-- C7 amended: `extract_content` never propagates an exception past its
boundary; a fetch error, a non-2xx status, a non-HTML content type, a
timeout (a client exception), and a parse failure all yield the same absent
value `none`, so the caller cannot distinguish among those failure
causes. -/
theorem claim7_failures_absent (url msg : String) (status : Int)
    (ct : String) (body : Except String Doc) :
    ScraperService.extract_content url (FetchResult.raised msg) = none
    ∧ (¬ (200 ≤ status ∧ status ≤ 299) →
        ScraperService.extract_content url (FetchResult.response status ct body) = none)
    ∧ (containsSub (lowerStr ct) "text/html" = false →
        ScraperService.extract_content url (FetchResult.response status ct body) = none)
    ∧ (∀ e, body = Except.error e →
        ScraperService.extract_content url (FetchResult.response status ct body) = none) := by
  refine ⟨rfl, ?_, ?_, ?_⟩
  · intro h
    simp [ScraperService.extract_content, h]
  · intro h
    by_cases hs : 200 ≤ status ∧ status ≤ 299 <;>
      simp [ScraperService.extract_content, hs, h]
  · intro e he
    subst he
    by_cases hs : 200 ≤ status ∧ status ≤ 299 <;>
      by_cases hct : containsSub (lowerStr ct) "text/html" <;>
        simp [ScraperService.extract_content, hs, hct]

/-- C7 witness: a 200 response whose content type is not HTML yields
`none`. -/
theorem claim7_witness :
    containsSub (lowerStr "application/json") "text/html" = false
    ∧ ScraperService.extract_content "http://example.com/p"
        (FetchResult.response 200 "application/json" (Except.ok demoDoc)) = none :=
  ⟨by decide,
   (claim7_failures_absent "http://example.com/p" "x" 200 "application/json"
      (Except.ok demoDoc)).2.2.1 (by decide)⟩

/-- C6: `search` never raises to its caller (the model is a total function
into result lists), and an internal failure of the selected provider
strategy — the DuckDuckGo request raising or returning a non-200 page, the
Google library missing or raising — makes it return the empty list,
whatever the configured provider name is. -/
theorem claim6_search_soft_fail (provider : String) (env : SearchEnv)
    (hd : ddgFailed env.ddg = true) (hg : googleFailed env.google = true) :
    SearchService.search provider env = [] := by
  have h1 : searchDuckduckgoHtmlSync env.maxResults env.ddg = [] := by
    cases henv : env.ddg with
    | raised m => rfl
    | page s elems =>
      rw [henv] at hd
      simp only [ddgFailed, decide_eq_true_eq] at hd
      simp [searchDuckduckgoHtmlSync, hd]
  have h2 : searchGooglesearch env.google = [] := by
    cases henv : env.google with
    | importFailed => rfl
    | raised m => rfl
    | ok hits =>
      rw [henv] at hg
      simp [googleFailed] at hg
  unfold SearchService.search
  split_ifs <;> simp [h1, h2]

/-- A search environment in which every strategy fails internally. -/
def searchEnvFail : SearchEnv :=
  { maxResults := 5, ddg := DDGFetch.raised "connection error", google := GoogleOutcome.importFailed }

/-- C6 witness: with a raising DuckDuckGo request and a missing Google
library, the configured `duckduckgo` provider search returns `[]`. -/
theorem claim6_witness :
    (ddgFailed searchEnvFail.ddg = true ∧ googleFailed searchEnvFail.google = true)
    ∧ SearchService.search "duckduckgo" searchEnvFail = [] :=
  ⟨⟨by decide, by decide⟩,
   claim6_search_soft_fail "duckduckgo" searchEnvFail (by decide) (by decide)⟩

/-- Closed form of the relevance score: `1 - p/10 = (10 - p)/10`.  Bridges
the source-shaped expression to a kernel-evaluable rational. -/
lemma relevance_eq (r : SearchResult) : relevance r = mkRat (10 - r.position) 10 := by
  unfold relevance
  rw [Rat.mkRat_eq_div]
  push_cast
  ring

/-- A pipeline run with no configured search provider whose LLM replies
with a fully valid JSON object. -/
def envNoSearch : PipelineEnv :=
  { searchProvider := none
    searchReturn := fun _ => []
    scrape := fun _ => none
    llmReply := fun _ _ _ => LLMReply.jsonObject demoJson
    elapsed := 0 }

/-- C1: with `SEARCH_PROVIDER` unset and a succeeding synthesizer, the run
does NOT return the claimed success response: the response construction
references the local `sources`, which the skipped-search path never
assigns, so the handler returns `success=false` with an internal error and
no enriched data.  This theorem evaluates the model at the failing
input. -/
theorem claim1_no_search_run_fails :
    synthesize_product_data
        (envNoSearch.llmReply reqDemo.product_name [] reqDemo.additional_context)
      = Except.ok demoEnriched
    ∧ (enrich_product envNoSearch reqDemo).success = false
    ∧ (enrich_product envNoSearch reqDemo).error
        = some ("Internal processing error: " ++ unboundLocalMsg)
    ∧ (enrich_product envNoSearch reqDemo).enriched_data = none :=
  ⟨rfl, rfl, rfl, rfl⟩

/-- Three hits with ranks 1, 2, 3. -/
def hit1 : SearchResult :=
  { title := "t1", url := "u1", snippet := "", source := "duckduckgo_html", position := 1 }

/-- Second hit. -/
def hit2 : SearchResult :=
  { title := "t2", url := "u2", snippet := "", source := "duckduckgo_html", position := 2 }

/-- Third hit. -/
def hit3 : SearchResult :=
  { title := "t3", url := "u3", snippet := "", source := "duckduckgo_html", position := 3 }

/-- A pipeline run with three search hits whose LLM replies with a fully
valid JSON object (all scrapes fail, which only empties the content). -/
def envThreeHits : PipelineEnv :=
  { searchProvider := some "duckduckgo"
    searchReturn := fun _ => [hit1, hit2, hit3]
    scrape := fun _ => none
    llmReply := fun _ _ _ => LLMReply.jsonObject demoJson
    elapsed := 0 }

/-- A pipeline run with three search hits whose LLM call raises a transport
error. -/
def envSynthFail : PipelineEnv :=
  { searchProvider := some "duckduckgo"
    searchReturn := fun _ => [hit1, hit2, hit3]
    scrape := fun _ => none
    llmReply := fun _ _ _ => LLMReply.transportError "connection refused"
    elapsed := 0 }

/-- C10: every run that ends with `success=false` went through the generic
exception handler, whose response leaves `sources`, `search_results_count`,
`cached` and `enriched_data` at their schema defaults — no partial pipeline
provenance survives, even when search had already returned hits. -/
theorem claim10_failure_drops_provenance (env : PipelineEnv) (r : EnrichmentRequest)
    (h : (enrich_product env r).success = false) :
    (enrich_product env r).sources = []
    ∧ (enrich_product env r).search_results_count = 0
    ∧ (enrich_product env r).cached = false
    ∧ (enrich_product env r).enriched_data = none := by
  unfold enrich_product at h ⊢
  by_cases h1 : (searchHits env r).isEmpty
  · rcases hsyn : synthesize_product_data
        (env.llmReply r.product_name [] r.additional_context) with e | d <;>
      simp [h1, hsyn, failureResponse]
  · by_cases h2 : ((searchHits env r).take 3).all (fun x => scoreValid (relevance x))
    · rcases hsyn : synthesize_product_data
          (env.llmReply r.product_name (validContentFor env r) r.additional_context) with e | d
      · simp [h1, h2, hsyn, failureResponse]
      · simp [h1, h2, hsyn] at h
    · simp [h1, h2, failureResponse]

/-- The three demo hits all pass the pydantic score bounds. -/
lemma allScores_hits :
    ([hit1, hit2, hit3] : List SearchResult).all (fun x => scoreValid (relevance x)) = true := by
  decide

/-- Evaluation of the synthesis-failure run: the transport error reaches
the handler. -/
lemma enrich_envSynthFail_eval :
    enrich_product envSynthFail reqDemo
      = failureResponse reqDemo "connection refused" 0 := by
  decide

/-- C10 witness: the synthesis-failure run (search had returned three
hits) yields `success=false` with defaulted provenance fields. -/
theorem claim10_witness :
    (enrich_product envSynthFail reqDemo).success = false
    ∧ ((enrich_product envSynthFail reqDemo).sources = []
       ∧ (enrich_product envSynthFail reqDemo).search_results_count = 0
       ∧ (enrich_product envSynthFail reqDemo).cached = false
       ∧ (enrich_product envSynthFail reqDemo).enriched_data = none) :=
  ⟨by decide, claim10_failure_drops_provenance envSynthFail reqDemo (by decide)⟩

/-- On a successful run the sources are exactly the top-3 hits mapped
through `mkSource`. -/
lemma enrich_success_sources (env : PipelineEnv) (r : EnrichmentRequest)
    (hok : (enrich_product env r).success = true) :
    (enrich_product env r).sources = ((searchHits env r).take 3).map mkSource := by
  unfold enrich_product at hok ⊢
  by_cases h1 : (searchHits env r).isEmpty
  · rcases hsyn : synthesize_product_data
        (env.llmReply r.product_name [] r.additional_context) with e | d <;>
      simp [h1, hsyn, failureResponse] at hok
  · by_cases h2 : ((searchHits env r).take 3).all (fun x => scoreValid (relevance x))
    · rcases hsyn : synthesize_product_data
          (env.llmReply r.product_name (validContentFor env r) r.additional_context) with e | d
      · simp [h1, h2, hsyn, failureResponse] at hok
      · simp [h1, h2, hsyn]
    · simp [h1, h2, failureResponse] at hok

/-- C2 counterexample: a successful run over hits ranked 1, 2, 3 carries
relevance scores 0.9, 0.8, 0.7 — not the claimed 1.0, 0.9, 0.8 — because
the source computes `1.0 - position * 0.1`, not
`1.0 - 0.1 * (position - 1)`. -/
theorem claim2_counterexample :
    (enrich_product envThreeHits reqDemo).success = true
    ∧ (enrich_product envThreeHits reqDemo).sources.map SourceReference.relevance_score
        = [9/10, 8/10, 7/10]
    ∧ (enrich_product envThreeHits reqDemo).sources.map SourceReference.relevance_score
        ≠ [1, 9/10, 8/10] :=
  ⟨by decide, by decide, by decide⟩

/-- C2 amended: when the hits have ranks 1, 2, 3 and the run succeeds, the
sources carry relevance scores `1.0 - 0.1 × rank`, i.e. exactly
0.9, 0.8, 0.7 in that order. -/
theorem claim2_relevance_per_rank (env : PipelineEnv) (r : EnrichmentRequest)
    (a b c : SearchResult) (rest : List SearchResult)
    (hs : searchHits env r = a :: b :: c :: rest)
    (hp1 : a.position = 1) (hp2 : b.position = 2) (hp3 : c.position = 3)
    (hok : (enrich_product env r).success = true) :
    (enrich_product env r).sources.map SourceReference.relevance_score
      = [9/10, 8/10, 7/10] := by
  have e1 : relevance a = 9/10 := by rw [relevance_eq, hp1]; decide
  have e2 : relevance b = 8/10 := by rw [relevance_eq, hp2]; decide
  have e3 : relevance c = 7/10 := by rw [relevance_eq, hp3]; decide
  have htake : (a :: b :: c :: rest).take 3 = [a, b, c] := rfl
  rw [enrich_success_sources env r hok, hs, htake]
  simp [mkSource, e1, e2, e3]

/-- C2 witness: the three-hit run satisfies the hypotheses and shows the
amended scores. -/
theorem claim2_witness :
    (searchHits envThreeHits reqDemo = hit1 :: hit2 :: hit3 :: ([] : List SearchResult)
     ∧ hit1.position = 1 ∧ hit2.position = 2 ∧ hit3.position = 3
     ∧ (enrich_product envThreeHits reqDemo).success = true)
    ∧ (enrich_product envThreeHits reqDemo).sources.map SourceReference.relevance_score
        = [9/10, 8/10, 7/10] :=
  ⟨⟨rfl, rfl, rfl, rfl, by decide⟩,
   claim2_relevance_per_rank envThreeHits reqDemo hit1 hit2 hit3 [] rfl rfl rfl rfl
     (by decide)⟩

/-- A failing LLM reply makes `synthesize_product_data` raise (return
`Except.error`). -/
lemma isFailReply_error (reply : LLMReply) (h : isFailReply reply = true) :
    ∃ e, synthesize_product_data reply = Except.error e := by
  cases reply with
  | transportError m => exact ⟨m, rfl⟩
  | emptyContent => exact ⟨_, rfl⟩
  | invalidJson => exact ⟨_, rfl⟩
  | jsonObject j =>
    refine ⟨"validation error for EnrichedProductData", ?_⟩
    rcases h1 : j.detailed_description with _ | d <;>
      rcases h2 : j.seo_title with _ | t <;>
        rcases h3 : j.seo_description with _ | s <;>
          simp only [isFailReply, h1, h2, h3, Option.isNone_none, Option.isNone_some,
            Bool.or_true, Bool.true_or, Bool.or_false, Bool.false_or,
            Bool.false_eq_true] at h <;>
          simp [synthesize_product_data, validateEnrichedProductData, h1, h2, h3]

/-- C5: when the LLM reply for the run's synthesis call fails (transport
error, empty content, invalid JSON, or a JSON object missing a required
field), `synthesize_product_data` raises rather than returning, and the
orchestrator converts that single exception into a terminal response:
`success=false`, the non-empty error string
`"Internal processing error: " ++ e`, `enriched_data=None`.  The pipeline
invokes the synthesizer exactly once (there is no retry path in the
model or the source). -/
theorem claim5_synthesis_failure_terminal (env : PipelineEnv) (r : EnrichmentRequest)
    (hfail : isFailReply
        (env.llmReply r.product_name (validContentFor env r) r.additional_context) = true)
    (hscores : ((searchHits env r).take 3).all (fun x => scoreValid (relevance x)) = true) :
    ∃ e,
      synthesize_product_data
          (env.llmReply r.product_name (validContentFor env r) r.additional_context)
        = Except.error e
      ∧ enrich_product env r = failureResponse r e env.elapsed
      ∧ (enrich_product env r).success = false
      ∧ (enrich_product env r).error = some ("Internal processing error: " ++ e)
      ∧ ("Internal processing error: " ++ e) ≠ ""
      ∧ (enrich_product env r).enriched_data = none := by
  have hnonempty : ∀ e : String, ("Internal processing error: " ++ e) ≠ "" := by
    intro e hc
    have hlen := congrArg String.length hc
    rw [String.length_append] at hlen
    have h27 : ("Internal processing error: " : String).length = 27 := rfl
    have h0 : ("" : String).length = 0 := rfl
    rw [h27, h0] at hlen
    omega
  by_cases h1 : (searchHits env r).isEmpty
  · have hv : validContentFor env r = [] := by simp [validContentFor, h1]
    rw [hv] at hfail
    obtain ⟨e, he⟩ := isFailReply_error _ hfail
    have hmain : enrich_product env r = failureResponse r e env.elapsed := by
      unfold enrich_product
      simp only []
      rw [if_pos h1, he]
    exact ⟨e, by rw [hv]; exact he, hmain, by rw [hmain]; rfl, by rw [hmain]; rfl,
      hnonempty e, by rw [hmain]; rfl⟩
  · obtain ⟨e, he⟩ := isFailReply_error _ hfail
    have hmain : enrich_product env r = failureResponse r e env.elapsed := by
      unfold enrich_product
      simp only []
      rw [if_neg ?hne, if_pos hscores, he]
      case hne => exact h1
    exact ⟨e, he, hmain, by rw [hmain]; rfl, by rw [hmain]; rfl, hnonempty e,
      by rw [hmain]; rfl⟩

/-- C5 witness: the transport-error run satisfies the hypotheses and ends
in a terminal failure response. -/
theorem claim5_witness :
    ∃ e,
      synthesize_product_data
          (envSynthFail.llmReply reqDemo.product_name
            (validContentFor envSynthFail reqDemo) reqDemo.additional_context)
        = Except.error e
      ∧ enrich_product envSynthFail reqDemo = failureResponse reqDemo e envSynthFail.elapsed
      ∧ (enrich_product envSynthFail reqDemo).success = false
      ∧ (enrich_product envSynthFail reqDemo).error
          = some ("Internal processing error: " ++ e)
      ∧ ("Internal processing error: " ++ e) ≠ ""
      ∧ (enrich_product envSynthFail reqDemo).enriched_data = none :=
  claim5_synthesis_failure_terminal envSynthFail reqDemo (by decide) (by decide)

/-- A request whose brand is present but empty. -/
def reqEmptyBrand : EnrichmentRequest :=
  { product_name := "Widget", brand := some "" }

/-- C8 counterexample: with `brand` present but equal to `""`, the code
skips the brand (Python truthiness), so the query is bare `"Widget"`, not
the claimed `product_name ++ " " ++ brand`. -/
theorem claim8_counterexample :
    reqEmptyBrand.brand.isSome = true
    ∧ buildQuery reqEmptyBrand = "Widget"
    ∧ buildQuery reqEmptyBrand ≠ reqEmptyBrand.product_name ++ " " ++ "" :=
  ⟨rfl, by decide, by decide⟩

/-- The search query as the amended claim words it: `product_name`,
followed by a space and the brand when the brand is present and non-empty,
followed by a space and the model when the model is present and
non-empty. -/
def specQuery (r : EnrichmentRequest) : String :=
  let withBrand :=
    match r.brand with
    | some b => if b ≠ "" then r.product_name ++ " " ++ b else r.product_name
    | none => r.product_name
  match r.model with
  | some m => if m ≠ "" then withBrand ++ " " ++ m else withBrand
  | none => withBrand

/-- The source query construction agrees with the amended wording. -/
lemma buildQuery_eq_specQuery (r : EnrichmentRequest) :
    buildQuery r = specQuery r := by
  unfold buildQuery specQuery
  rcases r.brand with _ | b <;> rcases r.model with _ | m <;>
    simp only [] <;> (try split_ifs) <;>
    simp_all [String.append_assoc, String.append_empty, String.empty_append]

/-- C8 amended: with search enabled, the query handed to the search
capability is `specQuery`: the product name, a space and the brand when the
brand is present and non-empty, a space and the model when the model is
present and non-empty; the query is invariant under `category` and
`additional_context`. -/
theorem claim8_query_construction (env : PipelineEnv) (r : EnrichmentRequest) :
    (searchEnabled env.searchProvider = true →
      searchHits env r = env.searchReturn (specQuery r))
    ∧ (∀ c a, buildQuery
        { r with category := c, additional_context := a } = buildQuery r) := by
  constructor
  · intro h
    unfold searchHits
    rw [if_pos h, buildQuery_eq_specQuery]
  · intro c a
    rfl

/-- C8 witness: the three-hit environment has search enabled and receives
the spec query. -/
theorem claim8_witness :
    searchEnabled envThreeHits.searchProvider = true
    ∧ searchHits envThreeHits reqDemo = envThreeHits.searchReturn (specQuery reqDemo) :=
  ⟨by decide, (claim8_query_construction envThreeHits reqDemo).1 (by decide)⟩

/-- Length of the normalized batch result list. -/
lemma batch_results_length (products : List EnrichmentRequest)
    (outcomes : List RunOutcome) (elapsed : ℚ)
    (hlen : outcomes.length = products.length) :
    (enrich_products_batch products outcomes elapsed).results.length
      = products.length := by
  simp [enrich_products_batch, List.length_zip, hlen]

/-- The batch result at index `i` is the normalization of the `i`-th
product against the `i`-th outcome. -/
lemma batch_results_get (products : List EnrichmentRequest)
    (outcomes : List RunOutcome) (elapsed : ℚ) (i : Nat)
    (h1 : i < products.length) (h2 : i < outcomes.length)
    (h3 : i < (enrich_products_batch products outcomes elapsed).results.length) :
    (enrich_products_batch products outcomes elapsed).results.get ⟨i, h3⟩
      = normalizeItem (products.get ⟨i, h1⟩) (outcomes.get ⟨i, h2⟩) := by
  simp [enrich_products_batch, List.get_eq_getElem, List.getElem_map, List.getElem_zip]

/-- C3: for every batch run (the gathered outcome list is index-aligned
with the input list), `succeeded + failed = total = len(results) =
len(input requests)`, and the `i`-th result is computed from the `i`-th
input request and the `i`-th run outcome — output order matches input
order. -/
theorem claim3_batch_invariants (products : List EnrichmentRequest)
    (outcomes : List RunOutcome) (elapsed : ℚ)
    (hlen : outcomes.length = products.length) :
    (enrich_products_batch products outcomes elapsed).succeeded
        + (enrich_products_batch products outcomes elapsed).failed
      = (enrich_products_batch products outcomes elapsed).total
    ∧ (enrich_products_batch products outcomes elapsed).total
      = (enrich_products_batch products outcomes elapsed).results.length
    ∧ (enrich_products_batch products outcomes elapsed).results.length
      = products.length
    ∧ ∀ i (h1 : i < products.length) (h2 : i < outcomes.length)
        (h3 : i < (enrich_products_batch products outcomes elapsed).results.length),
        (enrich_products_batch products outcomes elapsed).results.get ⟨i, h3⟩
          = normalizeItem (products.get ⟨i, h1⟩) (outcomes.get ⟨i, h2⟩) := by
  refine ⟨?_, rfl, batch_results_length products outcomes elapsed hlen,
    fun i h1 h2 h3 => batch_results_get products outcomes elapsed i h1 h2 h3⟩
  have hle : (((products.zip outcomes).map fun po => normalizeItem po.1 po.2).filter
      (fun x => x.success)).length
      ≤ ((products.zip outcomes).map fun po => normalizeItem po.1 po.2).length :=
    List.length_filter_le _ _
  simp only [enrich_products_batch]
  omega

/-- The three-item batch input: items A, B, C. -/
def batchProducts : List EnrichmentRequest :=
  [{ product_name := "A" }, { product_name := "B" }, { product_name := "C" }]

/-- Outcomes for the three-item batch: items A and C return successfully,
item B raises. -/
def batchOutcomes : List RunOutcome :=
  [RunOutcome.returned { success := true, product_name := "A" },
   RunOutcome.raised "boom",
   RunOutcome.returned { success := true, product_name := "C" }]

/-- C3 witness: the three-item batch with a raising middle item has
`succeeded + failed = total` and three index-aligned results. -/
theorem claim3_witness :
    batchOutcomes.length = batchProducts.length
    ∧ ((enrich_products_batch batchProducts batchOutcomes 1).succeeded
        + (enrich_products_batch batchProducts batchOutcomes 1).failed
      = (enrich_products_batch batchProducts batchOutcomes 1).total)
    ∧ (enrich_products_batch batchProducts batchOutcomes 1).results.length
      = batchProducts.length :=
  ⟨rfl, (claim3_batch_invariants batchProducts batchOutcomes 1 rfl).1,
   (claim3_batch_invariants batchProducts batchOutcomes 1 rfl).2.2.1⟩

/-- C4: a run that raised is converted, at its original index, into a
failure entry carrying the original `product_name` and the stringified
exception, while every run that returned keeps its own response at its own
index — one item's exception never aborts or alters the others. -/
theorem claim4_item_isolation (products : List EnrichmentRequest)
    (outcomes : List RunOutcome) (elapsed : ℚ) (i : Nat) (msg : String)
    (h1 : i < products.length) (h2 : i < outcomes.length)
    (h3 : i < (enrich_products_batch products outcomes elapsed).results.length)
    (hraised : outcomes.get ⟨i, h2⟩ = RunOutcome.raised msg) :
    (enrich_products_batch products outcomes elapsed).results.get ⟨i, h3⟩
      = { success := false
          product_name := (products.get ⟨i, h1⟩).product_name
          error := some msg }
    ∧ ∀ j (_hj1 : j < products.length) (hj2 : j < outcomes.length)
        (hj3 : j < (enrich_products_batch products outcomes elapsed).results.length)
        (resp : EnrichmentResponse),
        outcomes.get ⟨j, hj2⟩ = RunOutcome.returned resp →
        (enrich_products_batch products outcomes elapsed).results.get ⟨j, hj3⟩ = resp := by
  constructor
  · rw [batch_results_get products outcomes elapsed i h1 h2 h3, hraised]
    rfl
  · intro j hj1 hj2 hj3 resp hret
    rw [batch_results_get products outcomes elapsed j hj1 hj2 hj3, hret]
    rfl

/-- C4 witness: in the three-item batch, the raising middle item becomes a
failure entry with its product name and error string, and the first item's
response is unchanged. -/
theorem claim4_witness :
    batchOutcomes.get ⟨1, by decide⟩ = RunOutcome.raised "boom"
    ∧ (enrich_products_batch batchProducts batchOutcomes 1).results.get ⟨1, by decide⟩
      = { success := false, product_name := "B", error := some "boom" }
    ∧ (enrich_products_batch batchProducts batchOutcomes 1).results.get ⟨0, by decide⟩
      = { success := true, product_name := "A" } :=
  ⟨rfl,
   (claim4_item_isolation batchProducts batchOutcomes 1 1 "boom" (by decide) (by decide)
      (by decide) rfl).1,
   (claim4_item_isolation batchProducts batchOutcomes 1 1 "boom" (by decide) (by decide)
      (by decide) rfl).2 0 (by decide) (by decide) (by decide)
     { success := true, product_name := "A" } rfl⟩
